import Mathlib

/-!
# nri-mysql: the entry point `src/mysql.go`

A shallow embedding of the one source file of the integration (`generateDSN`,
`createNodeEntity`, `createIntegration`, `main`, `fatalIfErr`) and the properties
of it that the specification states.

Conventions of the embedding.

* A Go `string` is a Lean `String`; a Go `int` is an `Int` (every statement below holds
  for all integers, hence for the 64-bit ones).
* A Go pointer or interface result that may be `nil` is an `Option`; a Go multiple
  return `(T, error)` is a pair whose second component is `Option Error`.
* Calls that leave the file (the SDK, the database helpers of the package, the process
  environment) take their results from a `World` and are recorded, in order, in a
  trace of `Event`s.
* The package-level variable `args` is a field of the process state.
-/

namespace Mysql

/-! ## Formatting: the fragment of `strconv` and `fmt` the file uses -/

/-- Decimal digits of a natural number, least significant digit produced first and
pushed on the accumulator, as the loop of `strconv.formatBits` does in base 10.
The first argument bounds the number of iterations. -/
def formatBits : Nat → Nat → List Char → List Char
  | 0, _, acc => acc
  | fuel + 1, u, acc =>
    if u < 10 then Nat.digitChar u :: acc
    else formatBits fuel (u / 10) (Nat.digitChar (u % 10) :: acc)

/-- Decimal rendering of an unsigned value. -/
def formatUint (u : Nat) : List Char :=
  formatBits (u + 1) u []

/-- Decimal rendering of a Go `int`: `strconv.Itoa`, which is also what the verb `%d`
and the default format of `fmt` print for an `int`. -/
def Itoa (i : Int) : String :=
  match i with
  | Int.ofNat u => String.mk (formatUint u)
  | Int.negSucc u => String.mk ('-' :: formatUint (u + 1))

/-- An operand of a `fmt` call: the file passes only strings and ints. -/
inductive Value where
  | str (s : String)
  | int (i : Int)
  deriving DecidableEq, Repr

/-- Name of the Go type of an operand, as `fmt` prints it in its error forms. -/
def Value.typeName : Value → String
  | .str _ => "string"
  | .int _ => "int"

/-- Default format (`%v`) of an operand. -/
def Value.default : Value → String
  | .str s => s
  | .int i => Itoa i

/-- One verb applied to one operand. Only the verbs `s`, `d` and `v` are modelled; a
verb that does not fit the operand prints the `%!verb(type=value)` form. -/
def formatVerb (verb : Char) (a : Value) : String :=
  match a with
  | .str s =>
    if verb = 's' ∨ verb = 'v' then s
    else "%!" ++ String.singleton verb ++ "(string=" ++ s ++ ")"
  | .int i =>
    if verb = 'd' ∨ verb = 'v' then Itoa i
    else "%!" ++ String.singleton verb ++ "(int=" ++ Itoa i ++ ")"

/-- Operands left over when the format string is exhausted. -/
def extraOperands : List Value → String
  | [] => ""
  | [a] => a.typeName ++ "=" ++ a.default
  | a :: rest => a.typeName ++ "=" ++ a.default ++ ", " ++ extraOperands rest

/-- The scan of `fmt.Sprintf` over the format string (without flags, width or
precision, which the file does not use). -/
def doPrintf : List Char → List Value → String
  | [], [] => ""
  | [], a :: rest => "%!(EXTRA " ++ extraOperands (a :: rest) ++ ")"
  | c :: fmt, operands =>
    if c = '%' then
      match fmt, operands with
      | [], _ => "%!(NOVERB)"
      | verb :: fmt1, [] =>
        if verb = '%' then "%" ++ doPrintf fmt1 []
        else "%!" ++ String.singleton verb ++ "(MISSING)" ++ doPrintf fmt1 []
      | verb :: fmt1, a :: rest =>
        if verb = '%' then "%" ++ doPrintf fmt1 (a :: rest)
        else formatVerb verb a ++ doPrintf fmt1 rest
    else String.singleton c ++ doPrintf fmt operands

/-- Model of `fmt.Sprintf`. -/
def Sprintf (format : String) (operands : List Value) : String :=
  doPrintf format.data operands

/-- The scan of `fmt.Sprint`: operands in their default format, a space between two
adjacent operands when neither is a string. The flag says whether the previous operand
was a string (it is set for the first operand, before which nothing is added). -/
def doPrint : Bool → List Value → String
  | _, [] => ""
  | _, .str s :: rest => s ++ doPrint true rest
  | prevString, .int i :: rest =>
    (if prevString then "" else " ") ++ Itoa i ++ doPrint false rest

/-- Model of `fmt.Sprint`. -/
def Sprint (operands : List Value) : String :=
  doPrint true operands

/-! ## Constants and arguments -/

def integrationName : String := "com.newrelic.mysql"

def integrationVersion : String := "1.2.0"

def nodeEntityType : String := "node"

/-- The argument list of the SDK that `argumentList` embeds (`sdk_args.DefaultArgumentList`),
with the SDK methods the file calls on it. -/
structure DefaultArgumentList where
  Verbose : Bool := false
  Pretty : Bool := false
  Metrics : Bool := false
  Inventory : Bool := false
  Events : Bool := false
  deriving DecidableEq, Repr

/-- SDK: no data kind was selected, which selects all of them. -/
def DefaultArgumentList.All (d : DefaultArgumentList) : Bool :=
  !d.Inventory && !d.Metrics && !d.Events

/-- SDK: metrics are to be published. -/
def DefaultArgumentList.HasMetrics (d : DefaultArgumentList) : Bool :=
  d.Metrics || d.All

/-- SDK: inventory is to be published. -/
def DefaultArgumentList.HasInventory (d : DefaultArgumentList) : Bool :=
  d.Inventory || d.All

/-- The struct `argumentList`; the defaults here are Go zero values, the value of the
package variable before the SDK has parsed the command line. -/
structure argumentList extends DefaultArgumentList where
  Hostname : String := ""
  Port : Int := 0
  Username : String := ""
  Password : String := ""
  Database : String := ""
  RemoteMonitoring : Bool := false
  ExtendedMetrics : Bool := false
  ExtendedInnodbMetrics : Bool := false
  ExtendedMyIsamMetrics : Bool := false
  OldPasswords : Bool := false
  deriving DecidableEq, Repr

/-- Source lines 35-42. -/
def generateDSN (args : argumentList) : String :=
  let params := if args.OldPasswords then "?allowOldPasswords=true" else ""
  Sprintf "%s:%s@tcp(%s:%d)/%s%s"
    [.str args.Username, .str args.Password, .str args.Hostname, .int args.Port,
     .str args.Database, .str params]

/-! ## The process: state, trace, termination -/

/-- A Go `error` value that is not `nil`, identified by its message. -/
abbrev Error := String

/-- A logger of the SDK; `log.NewStdErr(debug)` builds the only one the file uses. -/
inductive Logger where
  | StdErr (debug : Bool)
  deriving DecidableEq, Repr

/-- Handle of a cache store made by `persist.NewFileStore`. -/
structure Storer where
  ref : Nat
  deriving DecidableEq, Repr

/-- Handle of the inventory of an entity (`e.Inventory`). -/
structure Inventory where
  ref : Nat
  deriving DecidableEq, Repr

/-- An SDK entity, as far as the file looks into it. -/
structure Entity where
  ref : Nat
  Inventory : Inventory
  deriving DecidableEq, Repr

/-- Result of `metric.Attr(key, value)`. -/
structure Attribute where
  Key : String
  Value : String
  deriving DecidableEq, Repr

/-- The metric set that `e.NewMetricSet(name, attributes...)` makes on an entity. -/
structure MetricSet where
  owner : Entity
  name : String
  attributes : List Attribute
  deriving DecidableEq, Repr

/-- Handle of the database connection returned by `openDB`. -/
structure DB where
  ref : Nat
  deriving DecidableEq, Repr

/-- Rows returned by `getRawData` (inventory rows or metric rows). -/
structure RawData where
  ref : Nat
  deriving DecidableEq, Repr

/-- The options the file passes to `integration.New`; `Args` stands for
`integration.Args(&args)`, which hands the SDK a pointer to the package variable. -/
inductive IntegrationOption where
  | Args
  | Storer (s : Option Storer)
  | Logger (l : Logger)
  deriving DecidableEq, Repr

/-- The calls that leave the file, in the order in which a run makes them. -/
inductive Event where
  | NewFileStore (path : String) (l : Logger) (ttl : Int)
  | New (name version : String) (opts : List IntegrationOption)
  | SetupLogging (verbose : Bool)
  | Entity (name entityType : String)
  | LocalEntity
  | openDB (dsn : String)
  | getRawData (db : Option DB)
  | populateInventory (inventory : Inventory) (raw : RawData)
  | NewMetricSet (e : Entity) (name : String) (attributes : List Attribute)
  | populateMetrics (ms : MetricSet) (raw : RawData)
  | Publish
  | close (db : Option DB)
  | Fatal (err : Error)
  deriving DecidableEq, Repr

/-- An SDK integration (`*integration.Integration` once dereferenced): what its methods
answer when the file calls them. -/
structure Integration where
  Entity : String → String → Option Mysql.Entity × Option Error
  LocalEntity : Option Mysql.Entity
  Publish : Option Error

/-- Everything outside the file that a run depends on. `New` receives the current value
of the package variable `args` and returns the value the SDK leaves in it; its error may
come from anything the SDK does inside the call, which includes making a default cache
store of its own when no `Storer` option was passed. -/
structure World where
  Getenv : String → String
  DefaultTTL : Int
  NewFileStore : String → Logger → Int → Option Storer × Option Error
  New : String → String → List IntegrationOption → argumentList →
    argumentList × (Option Integration × Option Error)
  openDB : String → Option DB × Option Error
  getRawData : Option DB → RawData × RawData × Option Error

/-- State of the process: the package variable `args` and the calls made so far. -/
structure Proc where
  args : argumentList
  trace : List Event
  deriving DecidableEq, Repr

/-- The process at its start: `args` holds zero values, nothing was called. -/
def Proc.init : Proc :=
  { args := {}, trace := [] }

/-- The state with one more call recorded. -/
def Proc.log (s : Proc) (e : Event) : Proc :=
  { s with trace := s.trace ++ [e] }

/-- How a piece of the program ends: it returns, or it panics; a panic unwinds the
calling functions, running their deferred calls, and ends the process. -/
inductive Result (α : Type) where
  | ret (a : α) (s : Proc)
  | panicked (s : Proc)
  deriving DecidableEq, Repr

/-- The process state a result ends in. -/
def Result.state {α : Type} : Result α → Proc
  | .ret _ s => s
  | .panicked s => s

/-- The calls made up to the end of a result. -/
def Result.trace {α : Type} (r : Result α) : List Event :=
  r.state.trace

/-- Whether the piece ended in a panic. -/
def Result.isPanicked {α : Type} : Result α → Bool
  | .panicked _ => true
  | .ret _ _ => false

/-- A piece of the program. -/
def Run (α : Type) : Type :=
  Proc → Result α

/-- Sequencing: the rest runs only after a return. -/
def Run.bind {α β : Type} (m : Run α) (f : α → Run β) : Run β := fun s =>
  match m s with
  | .ret a s1 => f a s1
  | .panicked s1 => .panicked s1

instance : Monad Run where
  pure a := fun s => .ret a s
  bind := Run.bind

/-- Reads the package variable `args`. -/
def getArgs : Run argumentList := fun s =>
  .ret s.args s

/-- Records a call. -/
def emit (e : Event) : Run Unit := fun s =>
  .ret () (s.log e)

/-- Dereference of a pointer: a nil pointer panics. -/
def deref {α : Type} : Option α → Run α
  | some a => pure a
  | none => fun s => .panicked s

/-- Go `defer`: the deferred call runs when the function body returns and also when it
panics, in which case the panic goes on after the deferred call. -/
def withDefer {α : Type} (deferred : Run Unit) (body : Run α) : Run α := fun s =>
  match body s with
  | .ret a s1 =>
    match deferred s1 with
    | .ret _ s2 => .ret a s2
    | .panicked s2 => .panicked s2
  | .panicked s1 =>
    match deferred s1 with
    | .ret _ s2 => .panicked s2
    | .panicked s2 => .panicked s2

/-! ## The calls that leave the file -/

/-- SDK `log.Fatal(err)`: logs the error and panics with it. The panic unwinds `main`,
so that a deferred call registered before it still runs, and the process ends with a
non-zero status. -/
def logFatal (err : Error) : Run Unit := fun s =>
  .panicked (s.log (.Fatal err))

/-- SDK `persist.NewFileStore(path, l, ttl)`. -/
def NewFileStore (w : World) (path : String) (l : Logger) (ttl : Int) :
    Run (Option Storer × Option Error) := do
  emit (.NewFileStore path l ttl)
  pure (w.NewFileStore path l ttl)

/-- SDK `integration.New(name, version, opts...)`; the SDK may write to `args` through
the pointer it was given. -/
def integrationNew (w : World) (name version : String) (opts : List IntegrationOption) :
    Run (Option Integration × Option Error) := fun s =>
  .ret (w.New name version opts s.args).2
    { args := (w.New name version opts s.args).1, trace := s.trace ++ [.New name version opts] }

/-- SDK `log.SetupLogging(verbose)`. -/
def SetupLogging (verbose : Bool) : Run Unit :=
  emit (.SetupLogging verbose)

/-- Package call `openDB(dsn)`. -/
def openDB (w : World) (dsn : String) : Run (Option DB × Option Error) := do
  emit (.openDB dsn)
  pure (w.openDB dsn)

/-- Package call `db.close()`. -/
def close (db : Option DB) : Run Unit :=
  emit (.close db)

/-- Package call `getRawData(db)`. -/
def getRawData (w : World) (db : Option DB) : Run (RawData × RawData × Option Error) := do
  emit (.getRawData db)
  pure (w.getRawData db)

/-- Package call `populateInventory(inventory, rawInventory)`. -/
def populateInventory (inventory : Inventory) (raw : RawData) : Run Unit :=
  emit (.populateInventory inventory raw)

/-- SDK `e.NewMetricSet(name, attributes...)`. -/
def NewMetricSet (e : Entity) (name : String) (attributes : List Attribute) :
    Run MetricSet := do
  emit (.NewMetricSet e name attributes)
  pure { owner := e, name := name, attributes := attributes }

/-- Package call `populateMetrics(ms, rawMetrics)`. -/
def populateMetrics (ms : MetricSet) (raw : RawData) : Run Unit :=
  emit (.populateMetrics ms raw)

/-- SDK `i.Publish()`. -/
def Publish (i : Integration) : Run (Option Error) := do
  emit .Publish
  pure i.Publish

/-! ## The functions of the file -/

/-- Source lines 46-57. -/
def createNodeEntity (i : Option Integration) (remoteMonitoring : Bool) (hostname : String)
    (port : Int) : Run (Option Entity × Option Error) :=
  if remoteMonitoring then do
    let i ← deref i
    emit (.Entity (Sprint [.str hostname, .str ":", .int port]) nodeEntityType)
    pure (i.Entity (Sprint [.str hostname, .str ":", .int port]) nodeEntityType)
  else do
    let i ← deref i
    emit .LocalEntity
    pure (i.LocalEntity, none)

/-- Source lines 59-79. -/
def createIntegration (w : World) : Run (Option Integration × Option Error) :=
  let cachePath := w.Getenv "NRIA_CACHE_PATH"
  if cachePath = "" then
    integrationNew w integrationName integrationVersion [.Args]
  else do
    let l := Logger.StdErr (← getArgs).Verbose
    let (s, err) ← NewFileStore w cachePath l w.DefaultTTL
    if err ≠ none then
      pure (none, err)
    else
      integrationNew w integrationName integrationVersion [.Args, .Storer s, .Logger l]

/-- Source lines 114-118. -/
def fatalIfErr (err : Option Error) : Run Unit :=
  match err with
  | some e => logFatal e
  | none => pure ()

/-- Source lines 81-112. -/
def main (w : World) : Run Unit := do
  let (i, err) ← createIntegration w
  fatalIfErr err
  SetupLogging (← getArgs).Verbose
  let (e, err) ← createNodeEntity i (← getArgs).RemoteMonitoring (← getArgs).Hostname
    (← getArgs).Port
  fatalIfErr err
  let (db, err) ← openDB w (generateDSN (← getArgs))
  fatalIfErr err
  withDefer (close db) do
    let (rawInventory, rawMetrics, err) ← getRawData w db
    fatalIfErr err
    if (← getArgs).HasInventory then
      populateInventory (← deref e).Inventory rawInventory
    if (← getArgs).HasMetrics then
      let ms ← NewMetricSet (← deref e) "MysqlSample"
        [Attribute.mk "hostname" (← getArgs).Hostname,
         Attribute.mk "port" (Itoa (← getArgs).Port)]
      populateMetrics ms rawMetrics
    fatalIfErr (← Publish (← deref i))

/-! ## Reading a trace -/

/-- The calls made before the connection is opened: the SDK calls of `createIntegration`,
`log.SetupLogging` and the entity request. -/
def Event.isSetup : Event → Bool
  | .NewFileStore _ _ _ => true
  | .New _ _ _ => true
  | .SetupLogging _ => true
  | .Entity _ _ => true
  | .LocalEntity => true
  | _ => false

/-- The creations of a metric set. -/
def Event.isNewMetricSet : Event → Bool
  | .NewMetricSet _ _ _ => true
  | _ => false

/-- The releases of a connection. -/
def Event.isClose : Event → Bool
  | .close _ => true
  | _ => false

/-- Numeric value of a string of decimal digits, most significant digit first. -/
def digitsValue (l : List Char) : Nat :=
  l.foldl (fun a c => 10 * a + (c.toNat - 48)) 0

/-! ## Sample worlds -/

/-- An entity for the samples. -/
def sampleEntity : Entity :=
  { ref := 1, Inventory := { ref := 2 } }

/-- An integration whose calls all succeed. -/
def sampleIntegration : Integration :=
  { Entity := fun _ _ => (some sampleEntity, none)
    LocalEntity := some sampleEntity
    Publish := none }

/-- Arguments as the SDK may leave them after parsing a command line. -/
def sampleArgs : argumentList :=
  { Hostname := "db1", Port := 3306, Username := "u", Password := "p", Database := "d", RemoteMonitoring := true }

/-- A world without a cache path in which every call succeeds. -/
def happyWorld : World :=
  { Getenv := fun _ => ""
    DefaultTTL := 60000000000
    NewFileStore := fun _ _ _ => (some { ref := 7 }, none)
    New := fun _ _ _ _ => (sampleArgs, some sampleIntegration, none)
    openDB := fun _ => (some { ref := 3 }, none)
    getRawData := fun _ => ({ ref := 4 }, { ref := 5 }, none) }

/-- The happy world with a cache path under which no store can be made. -/
def brokenCacheWorld : World :=
  { happyWorld with
    Getenv := fun k => if k = "NRIA_CACHE_PATH" then "/var/db/cache" else ""
    NewFileStore := fun _ _ _ => (none, some "permission denied") }

/-- A world without a cache path in which the SDK fails to make its default store inside
`integration.New`. -/
def defaultStoreFailsWorld : World :=
  { happyWorld with
    New := fun _ _ _ a => (a, none, some "can't create store: permission denied") }

/-- The happy world in which the entity request is refused. -/
def entityFailsWorld : World :=
  { happyWorld with
    New := fun _ _ _ _ =>
      (sampleArgs, some { sampleIntegration with Entity := fun _ _ => (none, some "no entity") },
        none) }

/-- The happy world in which the connection cannot be opened. -/
def connectFailsWorld : World :=
  { happyWorld with
    openDB := fun _ => (none, some "connection refused") }

/-- The happy world in which publishing fails. -/
def publishFailsWorld : World :=
  { happyWorld with
    New := fun _ _ _ _ =>
      (sampleArgs, some { sampleIntegration with Publish := some "broken pipe" }, none) }

/-- The happy world in which the extraction fails after a successful connection. -/
def queryFailsWorld : World :=
  { happyWorld with
    getRawData := fun _ => ({ ref := 0 }, { ref := 0 }, some "query failed") }

/-! ## The model on concrete inputs -/

example :
    generateDSN { Username := "u", Password := "p", Hostname := "h", Port := 3306, Database := "d", OldPasswords := true }
      = "u:p@tcp(h:3306)/d?allowOldPasswords=true" := by
  decide

example : Sprint [.str "h", .str ":", .int (-12)] = "h:-12" := by decide

example : Sprint [.int 1, .int 2, .str "a", .int 3] = "1 2a3" := by decide

example : Itoa 0 = "0" ∧ Itoa (-3306) = "-3306" ∧ Itoa 65535 = "65535" := by decide

example :
    (({} : DefaultArgumentList).HasInventory, ({} : DefaultArgumentList).HasMetrics) = (true, true) ∧
    (({ Inventory := true } : DefaultArgumentList).HasInventory, ({ Inventory := true } : DefaultArgumentList).HasMetrics) = (true, false) ∧
    (({ Metrics := true } : DefaultArgumentList).HasInventory, ({ Metrics := true } : DefaultArgumentList).HasMetrics) = (false, true) ∧
    (({ Events := true } : DefaultArgumentList).HasInventory, ({ Events := true } : DefaultArgumentList).HasMetrics) = (false, false) := by
  decide

example : Sprintf "%d%%|%s|%d" [.int 5, .int 7] = "5%|%!s(int=7)|%!d(MISSING)" := by decide

/-! ## Facts about the decimal rendering -/

/-- Recording a call leaves `args` alone. -/
@[simp]
theorem Proc.log_args (s : Proc) (e : Event) : (s.log e).args = s.args :=
  rfl

/-- Recording a call appends it to the trace. -/
@[simp]
theorem Proc.log_trace (s : Proc) (e : Event) : (s.log e).trace = s.trace ++ [e] :=
  rfl

theorem digitsValue_append_singleton (l : List Char) (c : Char) :
    digitsValue (l ++ [c]) = 10 * digitsValue l + (c.toNat - 48) := by
  simp [digitsValue, List.foldl_append]

theorem digitChar_value (u : Nat) (h : u < 10) : (Nat.digitChar u).toNat - 48 = u := by
  interval_cases u <;> rfl

theorem digitChar_ne_colon (u : Nat) (h : u < 10) : Nat.digitChar u ≠ ':' := by
  interval_cases u <;> decide

theorem digitChar_ne_minus (u : Nat) (h : u < 10) : Nat.digitChar u ≠ '-' := by
  interval_cases u <;> decide

/-- The accumulator of `formatBits` is a suffix of its result. -/
theorem formatBits_acc (fuel : Nat) : ∀ (u : Nat) (acc : List Char),
    formatBits fuel u acc = formatBits fuel u [] ++ acc := by
  induction fuel with
  | zero => intro u acc; simp [formatBits]
  | succ n ih =>
    intro u acc
    by_cases h : u < 10
    · simp [formatBits, h]
    · simp only [formatBits, h, if_false]
      rw [ih (u / 10) (Nat.digitChar (u % 10) :: acc), ih (u / 10) [Nat.digitChar (u % 10)]]
      simp

/-- With enough iterations the digits produced denote the number. -/
theorem digitsValue_formatBits (fuel : Nat) : ∀ u : Nat, u < fuel →
    digitsValue (formatBits fuel u []) = u := by
  induction fuel with
  | zero => intro u h; omega
  | succ n ih =>
    intro u hu
    by_cases h : u < 10
    · simp only [formatBits, h, if_true]
      simpa [digitsValue] using digitChar_value u h
    · simp only [formatBits, h, if_false]
      rw [formatBits_acc, digitsValue_append_singleton, ih (u / 10) (by omega),
        digitChar_value (u % 10) (Nat.mod_lt _ (by decide))]
      omega

theorem digitsValue_formatUint (u : Nat) : digitsValue (formatUint u) = u :=
  digitsValue_formatBits (u + 1) u (Nat.lt_succ_self u)

theorem formatUint_injective (u v : Nat) (h : formatUint u = formatUint v) : u = v := by
  have := congrArg digitsValue h
  simpa [digitsValue_formatUint] using this

/-- Every character `formatBits` adds is a digit, so neither a colon nor a minus. -/
theorem formatBits_chars (fuel : Nat) : ∀ (u : Nat) (acc : List Char) (c : Char),
    c ∈ formatBits fuel u acc → c ∈ acc ∨ (c ≠ ':' ∧ c ≠ '-') := by
  induction fuel with
  | zero => intro u acc c hc; exact Or.inl (by simpa [formatBits] using hc)
  | succ n ih =>
    intro u acc c hc
    by_cases h : u < 10
    · simp only [formatBits, h, if_true, List.mem_cons] at hc
      rcases hc with rfl | hc
      · exact Or.inr ⟨digitChar_ne_colon u h, digitChar_ne_minus u h⟩
      · exact Or.inl hc
    · simp only [formatBits, h, if_false] at hc
      rcases ih _ _ c hc with hc | hc
      · rcases List.mem_cons.mp hc with rfl | hc
        · exact Or.inr ⟨digitChar_ne_colon _ (Nat.mod_lt _ (by decide)),
            digitChar_ne_minus _ (Nat.mod_lt _ (by decide))⟩
        · exact Or.inl hc
      · exact Or.inr hc

theorem formatUint_chars (u : Nat) (c : Char) (hc : c ∈ formatUint u) :
    c ≠ ':' ∧ c ≠ '-' := by
  rcases formatBits_chars (u + 1) u [] c hc with h | h
  · simp at h
  · exact h

theorem formatUint_ne_nil (u : Nat) : formatUint u ≠ [] := by
  unfold formatUint
  by_cases h : u < 10
  · simp [formatBits, h]
  · simp only [formatBits, h, if_false]
    rw [formatBits_acc]
    simp

/-- The decimal rendering of an integer contains no colon. -/
theorem Itoa_no_colon (i : Int) : ':' ∉ (Itoa i).data := by
  cases i with
  | ofNat u =>
    intro hc
    exact (formatUint_chars u ':' hc).1 rfl
  | negSucc u =>
    intro hc
    simp only [Itoa, List.mem_cons] at hc
    rcases hc with hc | hc
    · exact absurd hc (by decide)
    · exact (formatUint_chars (u + 1) ':' hc).1 rfl

/-- The decimal rendering determines the integer. -/
theorem Itoa_injective (i j : Int) (h : Itoa i = Itoa j) : i = j := by
  have hd := congrArg String.data h
  cases i with
  | ofNat u =>
    cases j with
    | ofNat v =>
      simp only [Itoa] at hd
      rw [formatUint_injective u v hd]
    | negSucc v =>
      simp only [Itoa] at hd
      have hm : '-' ∈ formatUint u := by rw [hd]; exact List.mem_cons_self _ _
      exact absurd rfl (formatUint_chars u '-' hm).2
  | negSucc u =>
    cases j with
    | ofNat v =>
      simp only [Itoa] at hd
      have hm : '-' ∈ formatUint v := by rw [← hd]; exact List.mem_cons_self _ _
      exact absurd rfl (formatUint_chars v '-' hm).2
    | negSucc v =>
      simp only [Itoa, List.cons.injEq, true_and] at hd
      have := formatUint_injective (u + 1) (v + 1) hd
      have huv : u = v := by omega
      rw [huv]

/-- A list is split in one way only at the last occurrence of an element. -/
theorem split_at_last {α : Type} (c : α) : ∀ (l₁ l₂ r₁ r₂ : List α),
    l₁ ++ c :: r₁ = l₂ ++ c :: r₂ → c ∉ r₁ → c ∉ r₂ → l₁ = l₂ ∧ r₁ = r₂ := by
  intro l₁
  induction l₁ with
  | nil =>
    intro l₂ r₁ r₂ h h₁ _
    cases l₂ with
    | nil => simpa using h
    | cons y l₂ =>
      simp only [List.nil_append, List.cons_append, List.cons.injEq] at h
      exact absurd (by rw [h.2]; simp) h₁
  | cons x l₁ ih =>
    intro l₂ r₁ r₂ h h₁ h₂
    cases l₂ with
    | nil =>
      simp only [List.nil_append, List.cons_append, List.cons.injEq] at h
      exact absurd (by rw [← h.2]; simp) h₂
    | cons y l₂ =>
      simp only [List.cons_append, List.cons.injEq] at h
      obtain ⟨hl, hr⟩ := ih l₂ r₁ r₂ h.2 h₁ h₂
      exact ⟨by rw [h.1, hl], hr⟩

/-- What `fmt.Sprint(hostname, ":", port)` prints. -/
theorem Sprint_host_port (hostname : String) (port : Int) :
    Sprint [.str hostname, .str ":", .int port] = hostname ++ ":" ++ Itoa port := by
  simp only [Sprint, doPrint]
  apply String.ext
  simp [String.data_append]

/-! ## The connection descriptor -/

/-- Claim C1. For every argument list, `generateDSN` returns exactly
`Username:Password@tcp(Hostname:Port)/Database` followed by the parameters, where the
port is in decimal and the parameters are `?allowOldPasswords=true` when `OldPasswords`
is set and empty otherwise. -/
theorem generateDSN_eq (args : argumentList) :
    generateDSN args =
      args.Username ++ ":" ++ args.Password ++ "@tcp(" ++ args.Hostname ++ ":" ++
        Itoa args.Port ++ ")/" ++ args.Database ++
        (if args.OldPasswords then "?allowOldPasswords=true" else "") := by
  simp only [generateDSN, Sprintf, doPrintf, formatVerb]
  apply String.ext
  simp [String.data_append]

/-! ## The monitored entity -/

/-- Claim C2. With remote monitoring, `createNodeEntity` asks the integration for the
entity named `hostname:port` (port in decimal, nothing else inserted) of type `node`, and
returns what that request yields. -/
theorem createNodeEntity_remote (i : Integration) (hostname : String) (port : Int)
    (s : Proc) :
    createNodeEntity (some i) true hostname port s =
      .ret (i.Entity (hostname ++ ":" ++ Itoa port) "node")
        (s.log (.Entity (hostname ++ ":" ++ Itoa port) "node")) := by
  simp only [createNodeEntity, if_true, Sprint_host_port, nodeEntityType]
  rfl

/-- Claim C8. Without remote monitoring, `createNodeEntity` returns the local entity of
the integration with a nil error, whatever the hostname and the port: two calls on the
same integration that differ only in hostname and port have the same result. -/
theorem createNodeEntity_local (i : Integration) (hostname hostname' : String)
    (port port' : Int) (s : Proc) :
    createNodeEntity (some i) false hostname port s
        = .ret (i.LocalEntity, none) (s.log .LocalEntity) ∧
      createNodeEntity (some i) false hostname port s
        = createNodeEntity (some i) false hostname' port' s := by
  constructor <;> rfl

/-- Claim C10. The name of the remote entity determines the endpoint: if
`h₁:p₁` and `h₂:p₂` (ports in decimal) are the same string then `h₁ = h₂` and `p₁ = p₂`,
also when the hostnames contain colons. -/
theorem remote_entity_name_injective (h₁ h₂ : String) (p₁ p₂ : Int)
    (h : h₁ ++ ":" ++ Itoa p₁ = h₂ ++ ":" ++ Itoa p₂) : h₁ = h₂ ∧ p₁ = p₂ := by
  have hd := congrArg String.data h
  simp only [String.data_append, List.append_assoc] at hd
  have hsplit := split_at_last ':' h₁.data h₂.data (Itoa p₁).data (Itoa p₂).data hd
    (Itoa_no_colon p₁) (Itoa_no_colon p₂)
  exact ⟨String.ext hsplit.1, Itoa_injective p₁ p₂ (String.ext hsplit.2)⟩

theorem remote_entity_name_injective_witness :
    "db:1" ++ ":" ++ Itoa 3306 = "db:1" ++ ":" ++ Itoa 3306 ∧
      ("db:1" = "db:1" ∧ (3306 : Int) = 3306) :=
  ⟨rfl, remote_entity_name_injective "db:1" "db:1" 3306 3306 rfl⟩

/-! ## The integration and its cache -/

/-- Claim C9, as the code has it. `createIntegration` chooses by the value of
`NRIA_CACHE_PATH`. Empty: it requests no file store itself and makes one call of
`integration.New` with name, version and the arguments only, whose result, error
included, is returned as it is. Not empty: a file store is requested at that path with a
standard-error logger and the default TTL; if that fails the error is returned with a nil
integration and `integration.New` is not called, otherwise `integration.New` is called
with the arguments, that store and that logger. -/
theorem createIntegration_cache (w : World) (s : Proc) :
    createIntegration w s =
      if w.Getenv "NRIA_CACHE_PATH" = "" then
        .ret (w.New "com.newrelic.mysql" "1.2.0" [.Args] s.args).2
          { args := (w.New "com.newrelic.mysql" "1.2.0" [.Args] s.args).1
            trace := s.trace ++ [.New "com.newrelic.mysql" "1.2.0" [.Args]] }
      else
        match w.NewFileStore (w.Getenv "NRIA_CACHE_PATH") (.StdErr s.args.Verbose)
            w.DefaultTTL with
        | (_, some err) =>
          .ret (none, some err)
            { args := s.args
              trace := s.trace ++ [.NewFileStore (w.Getenv "NRIA_CACHE_PATH")
                (.StdErr s.args.Verbose) w.DefaultTTL] }
        | (store, none) =>
          .ret (w.New "com.newrelic.mysql" "1.2.0"
              [.Args, .Storer store, .Logger (.StdErr s.args.Verbose)] s.args).2
            { args := (w.New "com.newrelic.mysql" "1.2.0"
                [.Args, .Storer store, .Logger (.StdErr s.args.Verbose)] s.args).1
              trace := s.trace ++
                [.NewFileStore (w.Getenv "NRIA_CACHE_PATH") (.StdErr s.args.Verbose)
                    w.DefaultTTL,
                  .New "com.newrelic.mysql" "1.2.0"
                    [.Args, .Storer store, .Logger (.StdErr s.args.Verbose)]] } := by
  unfold createIntegration
  by_cases hp : w.Getenv "NRIA_CACHE_PATH" = ""
  · simp only [hp, if_true]
    rfl
  · simp only [hp, if_false]
    rcases hfs : w.NewFileStore (w.Getenv "NRIA_CACHE_PATH") (.StdErr s.args.Verbose)
      w.DefaultTTL with ⟨store, _ | err⟩
    · simp [bind, Run.bind, getArgs, NewFileStore, emit, pure, hfs, integrationNew,
        Proc.log, integrationName, integrationVersion]
    · simp [bind, Run.bind, getArgs, NewFileStore, emit, pure, hfs, Proc.log]

/-! ## The run -/

/-- When `createIntegration` returns it has added only set-up calls to the trace. -/
theorem createIntegration_setup (w : World) (s s1 : Proc)
    (r : Option Integration × Option Error) (h : createIntegration w s = .ret r s1)
    (hs : ∀ ev ∈ s.trace, ev.isSetup = true) : ∀ ev ∈ s1.trace, ev.isSetup = true := by
  unfold createIntegration at h
  by_cases hp : w.Getenv "NRIA_CACHE_PATH" = ""
  · simp only [hp, if_true, integrationNew, Result.ret.injEq] at h
    rw [← h.2]
    intro ev hev
    simp only [List.mem_append, List.mem_singleton] at hev
    rcases hev with hev | rfl
    · exact hs ev hev
    · rfl
  · simp only [hp, if_false] at h
    rcases hfs : w.NewFileStore (w.Getenv "NRIA_CACHE_PATH") (.StdErr s.args.Verbose)
      w.DefaultTTL with ⟨store, _ | err⟩
    · simp only [bind, Run.bind, getArgs, NewFileStore, emit, pure, hfs, integrationNew,
        Proc.log, ne_eq, not_true_eq_false, if_false, Result.ret.injEq] at h
      rw [← h.2]
      intro ev hev
      simp only [List.mem_append, List.mem_singleton] at hev
      rcases hev with (hev | rfl) | rfl
      · exact hs ev hev
      · rfl
      · rfl
    · simp only [bind, Run.bind, getArgs, NewFileStore, emit, pure, hfs,
        Proc.log, ne_eq, reduceCtorEq, not_false_eq_true, if_true, Result.ret.injEq] at h
      rw [← h.2]
      intro ev hev
      simp only [List.mem_append, List.mem_singleton] at hev
      rcases hev with hev | rfl
      · exact hs ev hev
      · rfl

/-- When `createNodeEntity` returns it has added one set-up call to the trace and left
`args` alone. -/
theorem createNodeEntity_setup (i : Option Integration) (remote : Bool) (hostname : String)
    (port : Int) (s s1 : Proc) (r : Option Entity × Option Error)
    (h : createNodeEntity i remote hostname port s = .ret r s1)
    (hs : ∀ ev ∈ s.trace, ev.isSetup = true) :
    s1.args = s.args ∧ ∀ ev ∈ s1.trace, ev.isSetup = true := by
  cases i with
  | none => cases remote <;> simp [createNodeEntity, bind, Run.bind, deref] at h
  | some i =>
    cases remote <;>
      simp only [createNodeEntity, bind, Run.bind, deref, pure, emit, Proc.log, if_true,
        Bool.false_eq_true, if_false, Result.ret.injEq] at h <;>
      · rw [← h.2]
        refine ⟨rfl, ?_⟩
        intro ev hev
        simp only [List.mem_append, List.mem_singleton] at hev
        rcases hev with hev | rfl
        · exact hs ev hev
        · rfl

/-- The trace of the process at its start holds no call. -/
theorem init_setup : ∀ ev ∈ Proc.init.trace, ev.isSetup = true := by
  intro ev hev
  simp [Proc.init] at hev

/-- Claim C5. `main` is fail-fast. If `createIntegration`, `createNodeEntity`, `openDB`
or `getRawData` returns a non-nil error, `fatalIfErr` ends the run right after that call
and no later statement of `main` is executed: the trace is the set-up calls made so far,
the failed call and the fatal call, followed only by the deferred `close` when the
connection had been opened, so that `populateInventory`, `populateMetrics` and `Publish`
are not called. `fatalIfErr` ends the run exactly when its argument is not nil, and
returns without effect when it is nil. -/
theorem main_fail_fast (w : World) :
    (∀ i err s1, createIntegration w Proc.init = .ret (i, some err) s1 →
      main w Proc.init = .panicked (s1.log (.Fatal err)) ∧
        ∀ ev ∈ s1.trace, ev.isSetup = true) ∧
    (∀ i s1 e err s2, createIntegration w Proc.init = .ret (i, none) s1 →
      createNodeEntity i s1.args.RemoteMonitoring s1.args.Hostname s1.args.Port
          (s1.log (.SetupLogging s1.args.Verbose)) = .ret (e, some err) s2 →
      main w Proc.init = .panicked (s2.log (.Fatal err)) ∧
        ∀ ev ∈ s2.trace, ev.isSetup = true) ∧
    (∀ i s1 e s2 db err, createIntegration w Proc.init = .ret (i, none) s1 →
      createNodeEntity i s1.args.RemoteMonitoring s1.args.Hostname s1.args.Port
          (s1.log (.SetupLogging s1.args.Verbose)) = .ret (e, none) s2 →
      w.openDB (generateDSN s2.args) = (db, some err) →
      main w Proc.init =
          .panicked { args := s2.args
                      trace := s2.trace ++ [.openDB (generateDSN s2.args), .Fatal err] } ∧
        ∀ ev ∈ s2.trace, ev.isSetup = true) ∧
    (∀ i s1 e s2 db rawInventory rawMetrics err,
      createIntegration w Proc.init = .ret (i, none) s1 →
      createNodeEntity i s1.args.RemoteMonitoring s1.args.Hostname s1.args.Port
          (s1.log (.SetupLogging s1.args.Verbose)) = .ret (e, none) s2 →
      w.openDB (generateDSN s2.args) = (db, none) →
      w.getRawData db = (rawInventory, rawMetrics, some err) →
      main w Proc.init =
          .panicked { args := s2.args
                      trace := s2.trace ++
                        [.openDB (generateDSN s2.args), .getRawData db, .Fatal err,
                          .close db] } ∧
        ∀ ev ∈ s2.trace, ev.isSetup = true) ∧
    (∀ (err : Option Error) (s : Proc),
      ((fatalIfErr err s).isPanicked = true ↔ err ≠ none) ∧
        (err = none → fatalIfErr err s = .ret () s)) := by
  have hlog : ∀ s1 : Proc, ∀ ev ∈ (s1.log (.SetupLogging s1.args.Verbose)).trace,
      (∀ ev ∈ s1.trace, ev.isSetup = true) → ev.isSetup = true := by
    intro s1 ev hev hs
    simp only [Proc.log, List.mem_append, List.mem_singleton] at hev
    rcases hev with hev | rfl
    · exact hs ev hev
    · rfl
  refine ⟨?_, ?_, ?_, ?_, ?_⟩
  · intro i err s1 hI
    refine ⟨?_, createIntegration_setup w _ _ _ hI init_setup⟩
    simp [main, bind, Run.bind, hI, fatalIfErr, logFatal]
  · intro i s1 e err s2 hI hE
    have h1 := createIntegration_setup w _ _ _ hI init_setup
    refine ⟨?_, (createNodeEntity_setup _ _ _ _ _ _ _ hE
      (fun ev hev => hlog s1 ev hev h1)).2⟩
    simp [main, bind, Run.bind, hI, fatalIfErr, logFatal, pure, getArgs, SetupLogging, emit,
      hE]
  · intro i s1 e s2 db err hI hE hD
    have h1 := createIntegration_setup w _ _ _ hI init_setup
    refine ⟨?_, (createNodeEntity_setup _ _ _ _ _ _ _ hE
      (fun ev hev => hlog s1 ev hev h1)).2⟩
    simp only [main, bind, Run.bind, hI, fatalIfErr, pure, getArgs, SetupLogging, emit,
      Proc.log_args, hE]
    simp [openDB, bind, Run.bind, emit, pure, hD, logFatal, Proc.log]
  · intro i s1 e s2 db rawInventory rawMetrics err hI hE hD hR
    have h1 := createIntegration_setup w _ _ _ hI init_setup
    refine ⟨?_, (createNodeEntity_setup _ _ _ _ _ _ _ hE
      (fun ev hev => hlog s1 ev hev h1)).2⟩
    simp only [main, bind, Run.bind, hI, fatalIfErr, pure, getArgs, SetupLogging, emit,
      Proc.log_args, hE]
    simp [openDB, bind, Run.bind, emit, pure, hD, logFatal, Proc.log, withDefer, getRawData,
      hR, close]
  · intro err s
    cases err <;> simp [fatalIfErr, logFatal, pure, Result.isPanicked]

theorem main_fail_fast_witness :
    main brokenCacheWorld Proc.init =
        .panicked
          { args := {}
            trace := [.NewFileStore "/var/db/cache" (.StdErr false) 60000000000,
              .Fatal "permission denied"] } ∧
      main entityFailsWorld Proc.init =
        .panicked
          { args := sampleArgs
            trace := [.New "com.newrelic.mysql" "1.2.0" [.Args], .SetupLogging false,
              .Entity "db1:3306" "node", .Fatal "no entity"] } ∧
      main connectFailsWorld Proc.init =
        .panicked
          { args := sampleArgs
            trace := [.New "com.newrelic.mysql" "1.2.0" [.Args], .SetupLogging false,
              .Entity "db1:3306" "node", .openDB "u:p@tcp(db1:3306)/d",
              .Fatal "connection refused"] } ∧
      main queryFailsWorld Proc.init =
        .panicked
          { args := sampleArgs
            trace := [.New "com.newrelic.mysql" "1.2.0" [.Args], .SetupLogging false,
              .Entity "db1:3306" "node", .openDB "u:p@tcp(db1:3306)/d",
              .getRawData (some { ref := 3 }), .Fatal "query failed",
              .close (some { ref := 3 })] } :=
  ⟨((main_fail_fast brokenCacheWorld).1 none "permission denied"
      { args := {}, trace := [.NewFileStore "/var/db/cache" (.StdErr false) 60000000000] }
      rfl).1,
    ((main_fail_fast entityFailsWorld).2.1 _
      { args := sampleArgs, trace := [.New "com.newrelic.mysql" "1.2.0" [.Args]] }
      none "no entity"
      { args := sampleArgs
        trace := [.New "com.newrelic.mysql" "1.2.0" [.Args], .SetupLogging false,
          .Entity "db1:3306" "node"] }
      rfl rfl).1,
    ((main_fail_fast connectFailsWorld).2.2.1 (some sampleIntegration)
      { args := sampleArgs, trace := [.New "com.newrelic.mysql" "1.2.0" [.Args]] }
      (some sampleEntity)
      { args := sampleArgs
        trace := [.New "com.newrelic.mysql" "1.2.0" [.Args], .SetupLogging false,
          .Entity "db1:3306" "node"] }
      none "connection refused" rfl rfl rfl).1,
    ((main_fail_fast queryFailsWorld).2.2.2.1 (some sampleIntegration)
      { args := sampleArgs, trace := [.New "com.newrelic.mysql" "1.2.0" [.Args]] }
      (some sampleEntity)
      { args := sampleArgs
        trace := [.New "com.newrelic.mysql" "1.2.0" [.Args], .SetupLogging false,
          .Entity "db1:3306" "node"] }
      (some { ref := 3 }) { ref := 0 } { ref := 0 } "query failed" rfl rfl rfl rfl).1⟩

/-- The run once integration, entity, connection and extraction have succeeded: the calls
made after the set-up, and how the process ends. -/
theorem main_connected (w : World) (i : Integration) (e : Entity) (s1 s2 : Proc)
    (db : Option DB) (rawInventory rawMetrics : RawData)
    (hI : createIntegration w Proc.init = .ret (some i, none) s1)
    (hE : createNodeEntity (some i) s1.args.RemoteMonitoring s1.args.Hostname s1.args.Port
      (s1.log (.SetupLogging s1.args.Verbose)) = .ret (some e, none) s2)
    (hD : w.openDB (generateDSN s2.args) = (db, none))
    (hR : w.getRawData db = (rawInventory, rawMetrics, none)) :
    (main w Proc.init).state.args = s2.args ∧
    (main w Proc.init).trace =
      s2.trace ++ [.openDB (generateDSN s2.args), .getRawData db] ++
        (if s2.args.HasInventory then [.populateInventory e.Inventory rawInventory]
          else []) ++
        (if s2.args.HasMetrics then
          [.NewMetricSet e "MysqlSample"
              [⟨"hostname", s2.args.Hostname⟩, ⟨"port", Itoa s2.args.Port⟩],
            .populateMetrics
              ⟨e, "MysqlSample", [⟨"hostname", s2.args.Hostname⟩, ⟨"port", Itoa s2.args.Port⟩]⟩
              rawMetrics]
          else []) ++
        [.Publish] ++
        (match i.Publish with
          | none => [.close db]
          | some err => [.Fatal err, .close db]) ∧
    (main w Proc.init).isPanicked = i.Publish.isSome := by
  have hmain : main w Proc.init =
      withDefer (close db) (do
        let (rawInventory, rawMetrics, err) ← getRawData w db
        fatalIfErr err
        if (← getArgs).HasInventory then
          populateInventory (← deref (some e)).Inventory rawInventory
        if (← getArgs).HasMetrics then
          let ms ← NewMetricSet (← deref (some e)) "MysqlSample"
            [Attribute.mk "hostname" (← getArgs).Hostname,
             Attribute.mk "port" (Itoa (← getArgs).Port)]
          populateMetrics ms rawMetrics
        fatalIfErr (← Publish (← deref (some i))))
        (s2.log (.openDB (generateDSN s2.args))) := by
    simp only [main, bind, Run.bind, hI, fatalIfErr, pure, getArgs, SetupLogging, emit,
      Proc.log_args, hE]
    simp [openDB, bind, Run.bind, emit, pure, hD]
  rw [hmain]
  cases hinv : s2.args.HasInventory <;> cases hmet : s2.args.HasMetrics <;>
    cases hpub : i.Publish <;>
    simp [withDefer, close, getRawData, bind, Run.bind, emit, pure, hR, fatalIfErr, getArgs,
      deref, populateInventory, NewMetricSet, populateMetrics, Publish, logFatal, hinv, hmet,
      hpub, Result.trace, Result.state, Result.isPanicked]

/-- Set-up calls are none of the later calls. -/
theorem setup_not_later (l : List Event) (hl : ∀ ev ∈ l, ev.isSetup = true) :
    Event.Publish ∉ l ∧ (∀ inv raw, Event.populateInventory inv raw ∉ l) ∧
      (∀ ms raw, Event.populateMetrics ms raw ∉ l) ∧
      (∀ db, Event.close db ∉ l) ∧ l.filter Event.isNewMetricSet = [] := by
  refine ⟨?_, ?_, ?_, ?_, ?_⟩
  · intro h
    exact absurd (hl _ h) (by decide)
  · intro inv raw h
    exact absurd (hl _ h) (by simp [Event.isSetup])
  · intro ms raw h
    exact absurd (hl _ h) (by simp [Event.isSetup])
  · intro db h
    exact absurd (hl _ h) (by simp [Event.isSetup])
  · rw [List.filter_eq_nil_iff]
    intro ev hev
    have := hl ev hev
    cases ev <;> simp_all [Event.isSetup, Event.isNewMetricSet]

/-- The calls made up to the return of `createNodeEntity` in `main` are set-up calls. -/
theorem entity_setup (w : World) (i : Option Integration) (s1 s2 : Proc)
    (r : Option Integration × Option Error) (r2 : Option Entity × Option Error)
    (hI : createIntegration w Proc.init = .ret r s1)
    (hE : createNodeEntity i s1.args.RemoteMonitoring s1.args.Hostname s1.args.Port
      (s1.log (.SetupLogging s1.args.Verbose)) = .ret r2 s2) :
    s2.args = s1.args ∧ ∀ ev ∈ s2.trace, ev.isSetup = true := by
  have h1 := createIntegration_setup w _ _ _ hI init_setup
  have h2 : ∀ ev ∈ (s1.log (.SetupLogging s1.args.Verbose)).trace, ev.isSetup = true := by
    intro ev hev
    simp only [Proc.log_trace, List.mem_append, List.mem_singleton] at hev
    rcases hev with hev | rfl
    · exact h1 ev hev
    · rfl
  exact createNodeEntity_setup i _ _ _ (s1.log (.SetupLogging s1.args.Verbose)) s2 r2 hE h2

/-- Claim C6. On a run in which integration creation, entity creation, connection and
extraction succeed, the calls after the set-up are: `openDB`, `getRawData`, then
`populateInventory` exactly when `args.HasInventory()`, then the creation of the metric
set and `populateMetrics` exactly when `args.HasMetrics()`, each decided by its own flag
alone, then `Publish`, once, in all four combinations (followed by the deferred `close`,
which the fatal call precedes when publishing fails). -/
theorem main_gates (w : World) (i : Integration) (e : Entity) (s1 s2 : Proc)
    (db : Option DB) (rawInventory rawMetrics : RawData)
    (hI : createIntegration w Proc.init = .ret (some i, none) s1)
    (hE : createNodeEntity (some i) s1.args.RemoteMonitoring s1.args.Hostname s1.args.Port
      (s1.log (.SetupLogging s1.args.Verbose)) = .ret (some e, none) s2)
    (hD : w.openDB (generateDSN s2.args) = (db, none))
    (hR : w.getRawData db = (rawInventory, rawMetrics, none)) :
    (main w Proc.init).trace =
      s2.trace ++ [.openDB (generateDSN s2.args), .getRawData db] ++
        (if s2.args.HasInventory then [.populateInventory e.Inventory rawInventory]
          else []) ++
        (if s2.args.HasMetrics then
          [.NewMetricSet e "MysqlSample"
              [⟨"hostname", s2.args.Hostname⟩, ⟨"port", Itoa s2.args.Port⟩],
            .populateMetrics
              ⟨e, "MysqlSample", [⟨"hostname", s2.args.Hostname⟩, ⟨"port", Itoa s2.args.Port⟩]⟩
              rawMetrics]
          else []) ++
        [.Publish] ++
        (match i.Publish with
          | none => [.close db]
          | some err => [.Fatal err, .close db]) ∧
    (∀ ev ∈ s2.trace, ev.isSetup = true) ∧
    ((∃ inv raw, Event.populateInventory inv raw ∈ (main w Proc.init).trace) ↔
      s2.args.HasInventory = true) ∧
    ((∃ ms raw, Event.populateMetrics ms raw ∈ (main w Proc.init).trace) ↔
      s2.args.HasMetrics = true) ∧
    (main w Proc.init).trace.count .Publish = 1 := by
  obtain ⟨-, htrace, -⟩ := main_connected w i e s1 s2 db rawInventory rawMetrics hI hE hD hR
  have hsetup := (entity_setup w _ _ _ _ _ hI hE).2
  obtain ⟨hP, hInv, hMet, -, -⟩ := setup_not_later s2.trace hsetup
  refine ⟨htrace, hsetup, ?_, ?_, ?_⟩
  · rw [htrace]
    cases hinv : s2.args.HasInventory <;> cases hmet : s2.args.HasMetrics <;>
      cases hpub : i.Publish <;> simp [hInv]
  · rw [htrace]
    cases hinv : s2.args.HasInventory <;> cases hmet : s2.args.HasMetrics <;>
      cases hpub : i.Publish <;> simp [hMet]
  · rw [htrace]
    have hc : s2.trace.count .Publish = 0 := List.count_eq_zero.mpr hP
    cases hinv : s2.args.HasInventory <;> cases hmet : s2.args.HasMetrics <;>
      cases hpub : i.Publish <;> simp [List.count_append, hc, List.count_cons]

theorem main_gates_witness :
    (main happyWorld Proc.init).trace.count .Publish = 1 :=
  (main_gates happyWorld sampleIntegration sampleEntity
    { args := sampleArgs, trace := [.New "com.newrelic.mysql" "1.2.0" [.Args]] }
    { args := sampleArgs
      trace := [.New "com.newrelic.mysql" "1.2.0" [.Args], .SetupLogging false,
        .Entity "db1:3306" "node"] }
    (some { ref := 3 }) { ref := 4 } { ref := 5 } rfl rfl rfl rfl).2.2.2.2

/-- The function `createIntegration` always returns. -/
theorem createIntegration_returns (w : World) (s : Proc) :
    ∃ r s1, createIntegration w s = .ret r s1 := by
  unfold createIntegration
  by_cases hp : w.Getenv "NRIA_CACHE_PATH" = ""
  · simp only [hp, if_true, integrationNew]
    exact ⟨_, _, rfl⟩
  · simp only [hp, if_false]
    rcases hfs : w.NewFileStore (w.Getenv "NRIA_CACHE_PATH") (.StdErr s.args.Verbose)
      w.DefaultTTL with ⟨store, _ | err⟩
    · simp [bind, Run.bind, getArgs, NewFileStore, emit, pure, hfs, integrationNew]
    · simp [bind, Run.bind, getArgs, NewFileStore, emit, pure, hfs]

/-- However `createNodeEntity` ends, it has left `args` alone and added at most a set-up
call to the trace. -/
theorem createNodeEntity_state (i : Option Integration) (remote : Bool) (hostname : String)
    (port : Int) (s : Proc) (hs : ∀ ev ∈ s.trace, ev.isSetup = true) :
    (createNodeEntity i remote hostname port s).state.args = s.args ∧
      ∀ ev ∈ (createNodeEntity i remote hostname port s).trace, ev.isSetup = true := by
  cases i with
  | none =>
    cases remote <;>
      simpa [createNodeEntity, bind, Run.bind, deref, Result.state, Result.trace] using hs
  | some i =>
    cases remote <;>
      simp only [createNodeEntity, bind, Run.bind, deref, pure, emit, if_true,
        Bool.false_eq_true, if_false, Result.state, Result.trace, Proc.log_args,
        Proc.log_trace, true_and] <;>
      · intro ev hev
        simp only [List.mem_append, List.mem_singleton] at hev
        rcases hev with hev | rfl
        · exact hs ev hev
        · rfl

/-- In every run, a metric set that `main` creates is the one named `MysqlSample` with
the attributes `hostname` and `port` of the arguments, and there is at most one. -/
theorem metric_sets_of_run (w : World) :
    ((main w Proc.init).trace.filter Event.isNewMetricSet).length ≤ 1 ∧
    ∀ e name attributes, Event.NewMetricSet e name attributes ∈ (main w Proc.init).trace →
      name = "MysqlSample" ∧
      attributes =
        [⟨"hostname", (main w Proc.init).state.args.Hostname⟩,
          ⟨"port", Itoa (main w Proc.init).state.args.Port⟩] := by
  obtain ⟨⟨i, err⟩, s1, hI⟩ := createIntegration_returns w Proc.init
  have h1 := createIntegration_setup w _ _ _ hI init_setup
  have hf1 := (setup_not_later s1.trace h1).2.2.2.2
  have hmem : ∀ (l : List Event), l.filter Event.isNewMetricSet = [] →
      ∀ e name attributes, Event.NewMetricSet e name attributes ∉ l := by
    intro l hl e name attributes hin
    have : Event.NewMetricSet e name attributes ∈ l.filter Event.isNewMetricSet :=
      List.mem_filter.mpr ⟨hin, rfl⟩
    rw [hl] at this
    exact absurd this (List.not_mem_nil _)
  cases err with
  | some err =>
    have hmain : main w Proc.init = .panicked (s1.log (.Fatal err)) := by
      simp [main, bind, Run.bind, hI, fatalIfErr, logFatal]
    rw [hmain]
    simp [Result.trace, Result.state, hf1, List.filter_append, Event.isNewMetricSet, hmem _ hf1]
  | none =>
    have h1' : ∀ ev ∈ (s1.log (.SetupLogging s1.args.Verbose)).trace, ev.isSetup = true := by
      intro ev hev
      simp only [Proc.log_trace, List.mem_append, List.mem_singleton] at hev
      rcases hev with hev | rfl
      · exact h1 ev hev
      · rfl
    obtain ⟨ha2, h2⟩ := createNodeEntity_state i s1.args.RemoteMonitoring s1.args.Hostname
      s1.args.Port (s1.log (.SetupLogging s1.args.Verbose)) h1'
    have hmain0 : main w Proc.init =
        ((createNodeEntity i s1.args.RemoteMonitoring s1.args.Hostname s1.args.Port).bind
          fun r => (fatalIfErr r.2).bind fun _ => do
            let (db, err) ← openDB w (generateDSN (← getArgs))
            fatalIfErr err
            withDefer (close db) do
              let (rawInventory, rawMetrics, err) ← getRawData w db
              fatalIfErr err
              if (← getArgs).HasInventory then
                populateInventory (← deref r.1).Inventory rawInventory
              if (← getArgs).HasMetrics then
                let ms ← NewMetricSet (← deref r.1) "MysqlSample"
                  [Attribute.mk "hostname" (← getArgs).Hostname,
                   Attribute.mk "port" (Itoa (← getArgs).Port)]
                populateMetrics ms rawMetrics
              fatalIfErr (← Publish (← deref i)))
          (s1.log (.SetupLogging s1.args.Verbose)) := by
      simp only [main, bind, Run.bind, hI, fatalIfErr, pure, getArgs, SetupLogging, emit,
        Proc.log_args]
    rw [hmain0]
    rcases hE : createNodeEntity i s1.args.RemoteMonitoring s1.args.Hostname s1.args.Port
      (s1.log (.SetupLogging s1.args.Verbose)) with ⟨⟨e, err2⟩, s2⟩ | s2
    all_goals rw [hE] at ha2 h2
    all_goals simp only [Result.state, Result.trace] at ha2 h2
    all_goals have hf2 := (setup_not_later s2.trace h2).2.2.2.2
    · cases err2 with
      | some err2 =>
        simp [Run.bind, hE, fatalIfErr, logFatal, Result.trace, Result.state, hf2, hmem _ hf2,
          List.filter_append, Event.isNewMetricSet]
      | none =>
        rcases hD : w.openDB (generateDSN s2.args) with ⟨db, _ | err3⟩
        · rcases hR : w.getRawData db with ⟨rawInventory, rawMetrics, _ | err4⟩
          · cases i with
            | none =>
              cases hrem : s1.args.RemoteMonitoring <;>
                simp [hrem, createNodeEntity, bind, Run.bind, deref] at hE
            | some i =>
              cases e <;> cases hinv : s2.args.HasInventory <;>
                cases hmet : s2.args.HasMetrics <;> cases hpub : i.Publish <;>
                simp [Run.bind, hE, fatalIfErr, logFatal, Result.trace, Result.state, hf2,
                  hmem _ hf2, List.filter_append, Event.isNewMetricSet, openDB, bind, emit,
                  pure, getArgs, hD, withDefer, close, getRawData, hR, deref,
                  populateInventory, NewMetricSet, populateMetrics, Publish, hinv, hmet, hpub,
                  List.filter_cons]
          · simp [Run.bind, hE, fatalIfErr, logFatal, Result.trace, Result.state, hf2,
              hmem _ hf2, List.filter_append, Event.isNewMetricSet, openDB, bind, emit, pure,
              getArgs, hD, withDefer, close, getRawData, hR, List.filter_cons]
        · simp [Run.bind, hE, fatalIfErr, logFatal, Result.trace, Result.state, hf2,
            hmem _ hf2, List.filter_append, Event.isNewMetricSet, openDB, bind, emit, pure,
            getArgs, hD, List.filter_cons]
    · simp [Run.bind, hE, Result.trace, Result.state, hf2, hmem _ hf2]

/-- Claim C7. A metric set that `main` creates is named `MysqlSample` and carries the
attributes `hostname = args.Hostname` and `port = ` the decimal string of `args.Port`,
and no run creates more than one. On a run that reaches the metrics step with metrics
enabled exactly one is created. The port string of the attribute is the port as it stands
in the descriptor of `generateDSN` and in the remote entity name of `createNodeEntity`
for the same arguments. -/
theorem main_metric_set (w : World) :
    ((main w Proc.init).trace.filter Event.isNewMetricSet).length ≤ 1 ∧
    (∀ e name attributes, Event.NewMetricSet e name attributes ∈ (main w Proc.init).trace →
      name = "MysqlSample" ∧
      attributes =
        [⟨"hostname", (main w Proc.init).state.args.Hostname⟩,
          ⟨"port", Itoa (main w Proc.init).state.args.Port⟩]) ∧
    (∀ (i : Integration) (e : Entity) (s1 s2 : Proc) (db : Option DB)
        (rawInventory rawMetrics : RawData),
      createIntegration w Proc.init = .ret (some i, none) s1 →
      createNodeEntity (some i) s1.args.RemoteMonitoring s1.args.Hostname s1.args.Port
        (s1.log (.SetupLogging s1.args.Verbose)) = .ret (some e, none) s2 →
      w.openDB (generateDSN s2.args) = (db, none) →
      w.getRawData db = (rawInventory, rawMetrics, none) →
      s2.args.HasMetrics = true →
      (main w Proc.init).trace.filter Event.isNewMetricSet =
          [.NewMetricSet e "MysqlSample"
            [⟨"hostname", s2.args.Hostname⟩, ⟨"port", Itoa s2.args.Port⟩]] ∧
        (main w Proc.init).state.args = s2.args ∧ s2.args = s1.args) ∧
    (∀ args : argumentList,
      generateDSN args =
        args.Username ++ ":" ++ args.Password ++ "@tcp(" ++ args.Hostname ++ ":" ++
          Itoa args.Port ++ ")/" ++ args.Database ++
          (if args.OldPasswords then "?allowOldPasswords=true" else "")) ∧
    (∀ (args : argumentList) (j : Integration) (s : Proc),
      (createNodeEntity (some j) true args.Hostname args.Port s).trace =
        s.trace ++ [.Entity (args.Hostname ++ ":" ++ Itoa args.Port) "node"]) := by
  refine ⟨(metric_sets_of_run w).1, (metric_sets_of_run w).2, ?_, ?_, ?_⟩
  · intro i e s1 s2 db rawInventory rawMetrics hI hE hD hR hM
    obtain ⟨hfinal, htrace, -⟩ :=
      main_connected w i e s1 s2 db rawInventory rawMetrics hI hE hD hR
    obtain ⟨hargs, hsetup⟩ := entity_setup w _ _ _ _ _ hI hE
    obtain ⟨-, -, -, -, hNew⟩ := setup_not_later s2.trace hsetup
    refine ⟨?_, hfinal, hargs⟩
    rw [htrace]
    cases hinv : s2.args.HasInventory <;> cases hpub : i.Publish <;>
      simp [hM, hNew, List.filter_cons, Event.isNewMetricSet]
  · intro args
    simp only [generateDSN, Sprintf, doPrintf, formatVerb]
    apply String.ext
    simp [String.data_append]
  · intro args j s
    simp only [createNodeEntity, if_true, Sprint_host_port, nodeEntityType]
    rfl

theorem main_metric_set_witness :
    (main happyWorld Proc.init).trace.filter Event.isNewMetricSet =
      [.NewMetricSet sampleEntity "MysqlSample" [⟨"hostname", "db1"⟩, ⟨"port", "3306"⟩]] :=
  ((main_metric_set happyWorld).2.2.1 sampleIntegration sampleEntity
    { args := sampleArgs, trace := [.New "com.newrelic.mysql" "1.2.0" [.Args]] }
    { args := sampleArgs
      trace := [.New "com.newrelic.mysql" "1.2.0" [.Args], .SetupLogging false,
        .Entity "db1:3306" "node"] }
    (some { ref := 3 }) { ref := 4 } { ref := 5 } rfl rfl rfl rfl rfl).1

/-- Claim C3, as the code has it. When `NRIA_CACHE_PATH` is set and the file store cannot
be made at that path, `createIntegration` returns the error and `main` is ended by
`fatalIfErr` at once: the run consists of the store request and the fatal call, it opens
no connection, extracts nothing and publishes nothing. -/
theorem main_cache_failure_is_fatal (w : World) (store : Option Storer) (err : Error)
    (hp : w.Getenv "NRIA_CACHE_PATH" ≠ "")
    (hs : w.NewFileStore (w.Getenv "NRIA_CACHE_PATH") (.StdErr false) w.DefaultTTL
      = (store, some err)) :
    createIntegration w Proc.init =
      .ret (none, some err)
        { args := {}
          trace := [.NewFileStore (w.Getenv "NRIA_CACHE_PATH") (.StdErr false)
            w.DefaultTTL] } ∧
    main w Proc.init =
      .panicked
        { args := {}
          trace := [.NewFileStore (w.Getenv "NRIA_CACHE_PATH") (.StdErr false) w.DefaultTTL,
            .Fatal err] } := by
  have hI : createIntegration w Proc.init =
      .ret (none, some err)
        { args := {}
          trace := [.NewFileStore (w.Getenv "NRIA_CACHE_PATH") (.StdErr false)
            w.DefaultTTL] } := by
    have hs' : w.NewFileStore (w.Getenv "NRIA_CACHE_PATH")
        (.StdErr Proc.init.args.Verbose) w.DefaultTTL = (store, some err) := hs
    simp [createIntegration, hp, bind, Run.bind, getArgs, NewFileStore, emit, pure, hs']
    rfl
  refine ⟨hI, ?_⟩
  simp [main, bind, Run.bind, hI, fatalIfErr, logFatal, Proc.log]

theorem main_cache_failure_is_fatal_witness :
    main brokenCacheWorld Proc.init =
      .panicked
        { args := {}
          trace := [.NewFileStore "/var/db/cache" (.StdErr false) 60000000000,
            .Fatal "permission denied"] } :=
  (main_cache_failure_is_fatal brokenCacheWorld none "permission denied" (by decide) rfl).2

/-- Claim C3 as stated fails: with `NRIA_CACHE_PATH` set and the store creation failing,
the run does not go on to connect and publish; it ends in the fatal call. -/
theorem cache_failure_aborts_run :
    brokenCacheWorld.Getenv "NRIA_CACHE_PATH" ≠ "" ∧
    (brokenCacheWorld.NewFileStore (brokenCacheWorld.Getenv "NRIA_CACHE_PATH")
      (.StdErr false) brokenCacheWorld.DefaultTTL).2 ≠ none ∧
    ¬ ((∃ dsn, Event.openDB dsn ∈ (main brokenCacheWorld Proc.init).trace) ∧
        (∃ db, Event.getRawData db ∈ (main brokenCacheWorld Proc.init).trace) ∧
        Event.Publish ∈ (main brokenCacheWorld Proc.init).trace ∧
        (main brokenCacheWorld Proc.init).isPanicked = false) := by
  have hrun : main brokenCacheWorld Proc.init =
      .panicked
        { args := {}
          trace := [.NewFileStore "/var/db/cache" (.StdErr false) 60000000000,
            .Fatal "permission denied"] } := rfl
  refine ⟨by decide, by decide, ?_⟩
  rw [hrun]
  simp [Result.trace, Result.state, Result.isPanicked]

/-- Set-up calls are neither fatal calls nor releases of the connection. -/
theorem setup_not_final (l : List Event) (hl : ∀ ev ∈ l, ev.isSetup = true) :
    (∀ err, Event.Fatal err ∉ l) ∧ l.filter Event.isClose = [] := by
  refine ⟨?_, ?_⟩
  · intro err h
    exact absurd (hl _ h) (by simp [Event.isSetup])
  · rw [List.filter_eq_nil_iff]
    intro ev hev
    have := hl ev hev
    cases ev <;> simp_all [Event.isSetup, Event.isClose]

/-- Claim C4. On every run of `main` in which `openDB` succeeds, the deferred
`db.close()` is executed, once, as the last call before the process ends, on every
exit path: when publishing succeeds, when `getRawData` fails and when `Publish` fails
(the fatal call is then followed by the `close`). -/
theorem main_closes_db (w : World) (i : Integration) (e : Option Entity)
    (s1 s2 : Proc) (db : Option DB)
    (hI : createIntegration w Proc.init = .ret (some i, none) s1)
    (hE : createNodeEntity (some i) s1.args.RemoteMonitoring s1.args.Hostname s1.args.Port
      (s1.log (.SetupLogging s1.args.Verbose)) = .ret (e, none) s2)
    (hD : w.openDB (generateDSN s2.args) = (db, none)) :
    (main w Proc.init).trace.filter Event.isClose = [.close db] ∧
    (main w Proc.init).trace.getLast? = some (.close db) ∧
    (∀ rawInventory rawMetrics err,
      w.getRawData db = (rawInventory, rawMetrics, some err) →
      (main w Proc.init).trace =
        s2.trace ++ [.openDB (generateDSN s2.args), .getRawData db, .Fatal err, .close db]) ∧
    (∀ entity rawInventory rawMetrics, e = some entity →
      w.getRawData db = (rawInventory, rawMetrics, none) →
      (main w Proc.init).trace =
        s2.trace ++ [.openDB (generateDSN s2.args), .getRawData db] ++
          (if s2.args.HasInventory then [.populateInventory entity.Inventory rawInventory]
            else []) ++
          (if s2.args.HasMetrics then
            [.NewMetricSet entity "MysqlSample"
                [⟨"hostname", s2.args.Hostname⟩, ⟨"port", Itoa s2.args.Port⟩],
              .populateMetrics
                ⟨entity, "MysqlSample",
                  [⟨"hostname", s2.args.Hostname⟩, ⟨"port", Itoa s2.args.Port⟩]⟩
                rawMetrics]
            else []) ++
          [.Publish] ++
          (match i.Publish with
            | none => [.close db]
            | some err => [.Fatal err, .close db])) := by
  obtain ⟨-, hsetup⟩ := entity_setup w _ _ _ _ _ hI hE
  obtain ⟨-, hC⟩ := setup_not_final s2.trace hsetup
  have hmain : main w Proc.init =
      withDefer (close db) (do
        let (rawInventory, rawMetrics, err) ← getRawData w db
        fatalIfErr err
        if (← getArgs).HasInventory then
          populateInventory (← deref e).Inventory rawInventory
        if (← getArgs).HasMetrics then
          let ms ← NewMetricSet (← deref e) "MysqlSample"
            [Attribute.mk "hostname" (← getArgs).Hostname,
             Attribute.mk "port" (Itoa (← getArgs).Port)]
          populateMetrics ms rawMetrics
        fatalIfErr (← Publish (← deref (some i))))
        (s2.log (.openDB (generateDSN s2.args))) := by
    simp only [main, bind, Run.bind, hI, fatalIfErr, pure, getArgs, SetupLogging, emit,
      Proc.log_args, hE]
    simp [openDB, bind, Run.bind, emit, pure, hD]
  have hboth : (main w Proc.init).trace.filter Event.isClose = [.close db] ∧
      (main w Proc.init).trace.getLast? = some (.close db) := by
    rw [hmain]
    rcases hR : w.getRawData db with ⟨rawInventory, rawMetrics, _ | err4⟩
    · cases e <;> cases hinv : s2.args.HasInventory <;>
        cases hmet : s2.args.HasMetrics <;> cases hpub : i.Publish <;>
        simp [withDefer, close, getRawData, bind, Run.bind, emit, pure, hR, fatalIfErr,
          getArgs, deref, populateInventory, NewMetricSet, populateMetrics, Publish,
          logFatal, hinv, hmet, hpub, Result.trace, Result.state, List.filter_append,
          List.filter_cons, Event.isClose, hC, List.getLast?_append]
    · simp [withDefer, close, getRawData, bind, Run.bind, emit, pure, hR, fatalIfErr,
        logFatal, Result.trace, Result.state, List.filter_append, List.filter_cons,
        Event.isClose, hC, List.getLast?_append]
  refine ⟨hboth.1, hboth.2, ?_, ?_⟩
  · intro rawInventory rawMetrics err hR
    rw [hmain]
    simp [withDefer, close, getRawData, bind, Run.bind, emit, pure, hR, fatalIfErr,
      logFatal, Result.trace, Result.state]
  · intro entity rawInventory rawMetrics he hR
    subst he
    exact (main_connected w i entity s1 s2 db rawInventory rawMetrics hI hE hD hR).2.1

theorem main_closes_db_witness :
    (main queryFailsWorld Proc.init).trace =
        [.New "com.newrelic.mysql" "1.2.0" [.Args], .SetupLogging false,
          .Entity "db1:3306" "node", .openDB "u:p@tcp(db1:3306)/d",
          .getRawData (some { ref := 3 }), .Fatal "query failed",
          .close (some { ref := 3 })] ∧
      (main publishFailsWorld Proc.init).trace.getLast? = some (.close (some { ref := 3 })) ∧
      (main happyWorld Proc.init).trace.getLast? = some (.close (some { ref := 3 })) :=
  ⟨(main_closes_db queryFailsWorld sampleIntegration (some sampleEntity)
      { args := sampleArgs, trace := [.New "com.newrelic.mysql" "1.2.0" [.Args]] }
      { args := sampleArgs
        trace := [.New "com.newrelic.mysql" "1.2.0" [.Args], .SetupLogging false,
          .Entity "db1:3306" "node"] }
      (some { ref := 3 }) rfl rfl rfl).2.2.1 { ref := 0 } { ref := 0 } "query failed" rfl,
    (main_closes_db publishFailsWorld { sampleIntegration with Publish := some "broken pipe" }
      (some sampleEntity)
      { args := sampleArgs, trace := [.New "com.newrelic.mysql" "1.2.0" [.Args]] }
      { args := sampleArgs
        trace := [.New "com.newrelic.mysql" "1.2.0" [.Args], .SetupLogging false,
          .Entity "db1:3306" "node"] }
      (some { ref := 3 }) rfl rfl rfl).2.1,
    (main_closes_db happyWorld sampleIntegration (some sampleEntity)
      { args := sampleArgs, trace := [.New "com.newrelic.mysql" "1.2.0" [.Args]] }
      { args := sampleArgs
        trace := [.New "com.newrelic.mysql" "1.2.0" [.Args], .SetupLogging false,
          .Entity "db1:3306" "node"] }
      (some { ref := 3 }) rfl rfl rfl).2.1⟩

example :
    (main publishFailsWorld Proc.init).trace =
      [.New "com.newrelic.mysql" "1.2.0" [.Args], .SetupLogging false,
        .Entity "db1:3306" "node", .openDB "u:p@tcp(db1:3306)/d",
        .getRawData (some { ref := 3 }),
        .populateInventory { ref := 2 } { ref := 4 },
        .NewMetricSet sampleEntity "MysqlSample" [⟨"hostname", "db1"⟩, ⟨"port", "3306"⟩],
        .populateMetrics
          ⟨sampleEntity, "MysqlSample", [⟨"hostname", "db1"⟩, ⟨"port", "3306"⟩]⟩ { ref := 5 },
        .Publish, .Fatal "broken pipe", .close (some { ref := 3 })] := by
  decide

/-- Claim C9 as stated fails in its first case. With `NRIA_CACHE_PATH` empty
`createIntegration` returns the result of `integration.New`, which makes a default store
of its own: when that fails, a store-creation error is returned with a nil integration. -/
theorem default_store_failure_is_returned :
    defaultStoreFailsWorld.Getenv "NRIA_CACHE_PATH" = "" ∧
    createIntegration defaultStoreFailsWorld Proc.init =
      .ret (none, some "can't create store: permission denied")
        { args := {}, trace := [.New "com.newrelic.mysql" "1.2.0" [.Args]] } ∧
    ¬ (∀ r s, createIntegration defaultStoreFailsWorld Proc.init = .ret r s → r.2 = none) := by
  refine ⟨rfl, rfl, ?_⟩
  intro h
  have := h (none, some "can't create store: permission denied")
    { args := {}, trace := [.New "com.newrelic.mysql" "1.2.0" [.Args]] } rfl
  exact absurd this (by decide)

end Mysql
